import Mathlib

/-!
Verification development for a JSONPlaceholder MCP server and its agent
orchestrator.  The definitions below are a shallow embedding of the Python
sources:

* `app/server/mcp_server.py` — JSON-RPC dispatcher `handle_jsonrpc`, tool
  executor `call_tool`, static catalogue `list_tools`;
* `app/tools/posts.py` — standalone tool executors `execute_get_post`,
  `execute_list_posts`;
* `streamlit_agent/agent/agent_logic.py` — `AgentOrchestrator.process_message`,
  `stream_message`, `_extract_tool_calls`, `_execute_tool_calls`.

Python JSON-ish runtime values are modelled by `PyVal`; external collaborators
(the JSONPlaceholder HTTP client and the LLM backend) are parameters of the
embedded functions, with Python exceptions modelled by `Except String`.
-/

/-- A Python runtime value as produced by FastAPI's JSON body parsing:
`None`, `bool`, `int`, `str`, `list`, `dict` (string keys, insertion order). -/
inductive PyVal where
  | none : PyVal
  | bool : Bool → PyVal
  | int : Int → PyVal
  | str : String → PyVal
  | list : List PyVal → PyVal
  | dict : List (String × PyVal) → PyVal
deriving Repr, BEq

namespace PyVal

/-- Python `d.get(k)` on a dict association list: first binding wins. -/
def lookup : List (String × PyVal) → String → Option PyVal
  | [], _ => Option.none
  | (k, v) :: rest, key => if k = key then some v else lookup rest key

/-- Python `d.get(k, default)`. -/
def lookupD (l : List (String × PyVal)) (key : String) (dflt : PyVal) : PyVal :=
  (lookup l key).getD dflt

/-- Python truthiness (`if x:`). -/
def truthy : PyVal → Bool
  | .none => false
  | .bool b => b
  | .int n => n != 0
  | .str s => s ≠ ""
  | .list xs => !xs.isEmpty
  | .dict xs => !xs.isEmpty

/-- Python `isinstance(x, int)`; note `bool` is a subclass of `int`. -/
def isInt : PyVal → Bool
  | .int _ => true
  | .bool _ => true
  | _ => false

/-- Numeric value of a Python int (with `True = 1`, `False = 0`). -/
def toInt : PyVal → Int
  | .int n => n
  | .bool true => 1
  | _ => 0

/-- Python `x is None`. -/
def isNone : PyVal → Bool
  | .none => true
  | _ => false

/-- Whether a dict value has a binding for `key`. -/
def hasKey : PyVal → String → Bool
  | .dict l, key => (lookup l key).isSome
  | _, _ => false

/-- `d[k]` read on a dict value, `none` elsewhere. -/
def attr : PyVal → String → Option PyVal
  | .dict l, key => lookup l key
  | _, _ => Option.none

mutual

/-- Python `repr`: the form used for elements inside containers. -/
def pyRepr : PyVal → String
  | .none => "None"
  | .bool true => "True"
  | .bool false => "False"
  | .int n => toString n
  | .str s => "'" ++ s ++ "'"
  | .list xs => "[" ++ pyReprList xs ++ "]"
  | .dict xs => "\x7b" ++ pyReprDict xs ++ "\x7d"

def pyReprList : List PyVal → String
  | [] => ""
  | [x] => pyRepr x
  | x :: xs => pyRepr x ++ ", " ++ pyReprList xs

def pyReprDict : List (String × PyVal) → String
  | [] => ""
  | [(k, v)] => "'" ++ k ++ "': " ++ pyRepr v
  | (k, v) :: xs => "'" ++ k ++ "': " ++ pyRepr v ++ ", " ++ pyReprDict xs

end

/-- Python `str(x)`: like `repr` except a top-level string prints bare. -/
def pyStr : PyVal → String
  | .str s => s
  | v => pyRepr v

mutual

/-- `json.dumps` with the default separators. -/
def jsonDumps : PyVal → String
  | .none => "null"
  | .bool true => "true"
  | .bool false => "false"
  | .int n => toString n
  | .str s => "\"" ++ s ++ "\""
  | .list xs => "[" ++ jsonDumpsList xs ++ "]"
  | .dict xs => "\x7b" ++ jsonDumpsDict xs ++ "\x7d"

def jsonDumpsList : List PyVal → String
  | [] => ""
  | [x] => jsonDumps x
  | x :: xs => jsonDumps x ++ ", " ++ jsonDumpsList xs

def jsonDumpsDict : List (String × PyVal) → String
  | [] => ""
  | [(k, v)] => "\"" ++ k ++ "\": " ++ jsonDumps v
  | (k, v) :: xs => "\"" ++ k ++ "\": " ++ jsonDumps v ++ ", " ++ jsonDumpsDict xs

end

end PyVal

/-! ## Content Provider collaborator (`JSONPlaceholderClient`)

`app/server/services/jsonplaceholder_client.py`: `get_post`/`get_user` return
`None` on a 404 (modelled as `.ok .none`), raise `ValueError` on transport or
HTTP failures (modelled as `.error msg`), and return parsed data otherwise.
`list_posts` is handed whatever `user_id` value the executor extracted. -/
structure Provider where
  get_post : Int → Except String PyVal
  list_posts : PyVal → Except String PyVal
  get_comments_for_post : Int → Except String PyVal
  get_user : Int → Except String PyVal
  list_users : Except String PyVal

/-- One delegation from the Tool Executor to the Content Provider. -/
inductive ProviderOp where
  | getPost : Int → ProviderOp
  | listPosts : PyVal → ProviderOp
  | getComments : Int → ProviderOp
  | getUser : Int → ProviderOp
  | listUsers : ProviderOp
deriving Repr

/-- `ToolCall` pydantic model: tool name plus `dict[str, Any]` arguments. -/
structure ToolCall where
  name : String
  arguments : List (String × PyVal)

/-- `ToolResult` pydantic model: `success`, `data` (default `None`),
`error` (default `None`). -/
structure ToolResult where
  success : Bool
  data : PyVal := .none
  error : Option String := Option.none
deriving Repr

/-- The branch body of `call_tool` for one tool: either a raised `ValueError`
message or the provider call made, together with the delegation log. -/
def callToolBody (p : Provider) (req : ToolCall) :
    Except String PyVal × List ProviderOp :=
  if req.name = "get_post" then
    let post_id := PyVal.lookupD req.arguments "post_id" .none
    if ¬ post_id.isInt ∨ post_id.toInt < 1 ∨ post_id.toInt > 100 then
      (.error "post_id must be an integer between 1 and 100", [])
    else
      (p.get_post post_id.toInt, [.getPost post_id.toInt])
  else if req.name = "list_posts" then
    let user_id := PyVal.lookupD req.arguments "user_id" .none
    (p.list_posts user_id, [.listPosts user_id])
  else if req.name = "get_comments_for_post" then
    let post_id := PyVal.lookupD req.arguments "post_id" .none
    if ¬ post_id.isInt then
      (.error "post_id must be an integer", [])
    else
      (p.get_comments_for_post post_id.toInt, [.getComments post_id.toInt])
  else if req.name = "get_user" then
    let user_id := PyVal.lookupD req.arguments "user_id" .none
    if ¬ user_id.isInt ∨ user_id.toInt < 1 ∨ user_id.toInt > 10 then
      (.error "user_id must be an integer between 1 and 10", [])
    else
      (p.get_user user_id.toInt, [.getUser user_id.toInt])
  else if req.name = "list_users" then
    (p.list_users, [.listUsers])
  else
    (.error ("Unknown tool: " ++ req.name), [])

/-- `call_tool` (`app/server/mcp_server.py`): run the tool branch inside a
`try/except` that converts any raised exception into a failed envelope.  The
second component is the log of Content Provider delegations made. -/
def call_tool (p : Provider) (req : ToolCall) : ToolResult × List ProviderOp :=
  match callToolBody p req with
  | (.ok v, log) => ({ success := true, data := v }, log)
  | (.error e, log) => ({ success := false, error := some e }, log)

/-! ## JSON-RPC dispatcher (`handle_jsonrpc`) -/

def SUPPORTED_PROTOCOL_VERSIONS : List String :=
  ["2025-11-05", "2025-06-18", "2025-03-26"]

/-- The static catalogue returned by `list_tools` (`GET /tools`). -/
def list_tools : PyVal :=
  .list
    [ .dict
        [ ("name", .str "get_post"),
          ("description", .str "Get a specific post by ID"),
          ("inputSchema", .dict
            [ ("type", .str "object"),
              ("properties", .dict
                [ ("post_id", .dict
                    [ ("type", .str "integer"),
                      ("description", .str "Post ID (1-100)") ]) ]),
              ("required", .list [.str "post_id"]) ]) ],
      .dict
        [ ("name", .str "list_posts"),
          ("description", .str "List all posts or posts by a specific user"),
          ("inputSchema", .dict
            [ ("type", .str "object"),
              ("properties", .dict
                [ ("user_id", .dict
                    [ ("type", .str "integer"),
                      ("description", .str "Optional user ID to filter posts") ]) ]),
              ("required", .list []) ]) ],
      .dict
        [ ("name", .str "get_comments_for_post"),
          ("description", .str "Get all comments on a specific post"),
          ("inputSchema", .dict
            [ ("type", .str "object"),
              ("properties", .dict
                [ ("post_id", .dict
                    [ ("type", .str "integer"),
                      ("description", .str "Post ID") ]) ]),
              ("required", .list [.str "post_id"]) ]) ],
      .dict
        [ ("name", .str "get_user"),
          ("description", .str "Get user information by ID"),
          ("inputSchema", .dict
            [ ("type", .str "object"),
              ("properties", .dict
                [ ("user_id", .dict
                    [ ("type", .str "integer"),
                      ("description", .str "User ID (1-10)") ]) ]),
              ("required", .list [.str "user_id"]) ]) ],
      .dict
        [ ("name", .str "list_users"),
          ("description", .str "List all users"),
          ("inputSchema", .dict
            [ ("type", .str "object"),
              ("properties", .dict []) ]) ] ]

/-- A JSON-RPC error response dict as built inline by `handle_jsonrpc`. -/
def rpcError (code : Int) (message : String) (idv : PyVal) : PyVal :=
  .dict [("jsonrpc", .str "2.0"), ("error", .dict [("code", .int code), ("message", .str message)]), ("id", idv)]

/-- A JSON-RPC result response dict as built inline by `handle_jsonrpc`. -/
def rpcResult (result : PyVal) (idv : PyVal) : PyVal :=
  .dict [("jsonrpc", .str "2.0"), ("result", result), ("id", idv)]

/-- Method dispatch of `handle_jsonrpc` after the version check. -/
def dispatchMethod (p : Provider) (method params request_id : PyVal) :
    Except String PyVal :=
  match method with
  | .str "initialize" =>
    let requested_version : Option PyVal :=
      match params with
      | .dict l => PyVal.lookup l "protocolVersion"
      | _ => Option.none
    let negotiated_version : String :=
      match requested_version with
      | some (.str s) =>
        if s ∈ SUPPORTED_PROTOCOL_VERSIONS then s else "2025-11-05"
      | _ => "2025-11-05"
    .ok (rpcResult
      (.dict
        [ ("protocolVersion", .str negotiated_version),
          ("capabilities", .dict [("tools", .dict [])]),
          ("serverInfo", .dict
            [ ("name", .str "jsonplaceholder-mcp-server"),
              ("version", .str "1.0.0") ]) ])
      request_id)
  | .str "notifications/initialized" =>
    .ok (rpcResult (.dict []) request_id)
  | .str "tools/list" =>
    .ok (rpcResult (.dict [("tools", list_tools)]) request_id)
  | .str "tools/call" =>
    match params with
    | .dict pl =>
      let tool_name := PyVal.lookupD pl "name" .none
      if ¬ tool_name.truthy then
        .ok (rpcError (-32602) "Missing tool name" request_id)
      else
        -- try-block: `ToolCall(name=..., arguments=...)` pydantic validation
        -- raises unless the name is a str and the arguments are a dict;
        -- that exception is caught and reported as -32603.
        match tool_name, PyVal.lookupD pl "arguments" (.dict []) with
        | .str nm, .dict args =>
          let result := (call_tool p { name := nm, arguments := args }).1
          .ok (rpcResult
            (.dict
              [ ("content",
                  if result.success then
                    .list [.dict [("type", .str "text"), ("text", .str (PyVal.pyStr result.data))]]
                  else .list []),
                ("isError", .bool (¬ result.success)) ])
            request_id)
        | _, _ =>
          .ok (rpcError (-32603) "Tool execution failed: validation error for ToolCall" request_id)
    | _ =>
      -- `params.get("name")` on a non-dict raises AttributeError outside
      -- any try-block: the handler itself fails.
      .error "AttributeError: object has no attribute get"
  | _ =>
    .ok (rpcError (-32601) ("Method not found: " ++ PyVal.pyStr method) request_id)

/-- `handle_jsonrpc` (`POST /`, mirrored at `POST /mcp`).  Returns
`.error msg` when the handler raises an uncaught Python exception (so FastAPI
would answer with a 500, not a JSON-RPC response). -/
def handle_jsonrpc (p : Provider) (payload : PyVal) : Except String PyVal :=
  match payload with
  | .dict fields =>
    let jsonrpc_version := PyVal.lookupD fields "jsonrpc" .none
    let method := PyVal.lookupD fields "method" .none
    let params := PyVal.lookupD fields "params" (.dict [])
    let request_id := PyVal.lookupD fields "id" .none
    match jsonrpc_version with
    | .str "2.0" => dispatchMethod p method params request_id
    | _ => .ok (rpcError (-32600) "Invalid Request" request_id)
  | _ => .ok (rpcError (-32600) "Invalid Request" .none)

/-! ## Standalone tool executors (`app/tools/posts.py`)

These return the `text` fields of the `TextContent` list the Python functions
build. -/

/-- Python `len` on a list value. -/
def lenOf : PyVal → Int
  | .list xs => xs.length
  | _ => 0

/-- `execute_get_post`: validate `post_id`, fetch, map an absent post to a
status-404 payload, exceptions to error texts. -/
def execute_get_post (p : Provider) (post_id : PyVal) : List String :=
  if ¬ post_id.isInt ∨ post_id.toInt < 1 ∨ post_id.toInt > 100 then
    ["\x7b\"error\": \"Invalid post_id. Must be integer between 1 and 100\"\x7d"]
  else
    match p.get_post post_id.toInt with
    | .ok .none =>
      ["\x7b\"error\": \"Post " ++ PyVal.pyStr post_id ++ " not found\", \"status\": 404\x7d"]
    | .ok post => [PyVal.jsonDumps post]
    | .error e => ["\x7b\"error\": \"" ++ e ++ "\"\x7d"]

/-- `execute_list_posts`: validate a present (`is not None`) `user_id` before
delegating; `filter_text` follows the Python truthiness test; the second
component logs the Content Provider delegations made. -/
def execute_list_posts (p : Provider) (user_id : PyVal) :
    List String × List ProviderOp :=
  if user_id.isNone = false ∧
      (¬ user_id.isInt ∨ user_id.toInt < 1 ∨ user_id.toInt > 10) then
    (["\x7b\"error\": \"Invalid user_id. Must be integer between 1 and 10\"\x7d"], [])
  else
    let filter_text := if user_id.truthy then " for user " ++ PyVal.pyStr user_id else ""
    match p.list_posts user_id with
    | .ok posts =>
      if ¬ posts.truthy then
        (["\x7b\"data\": [], \"message\": \"No posts found" ++ filter_text ++ "\"\x7d"],
         [.listPosts user_id])
      else
        ([PyVal.jsonDumps (.dict [("data", posts), ("count", .int (lenOf posts))])],
         [.listPosts user_id])
    | .error e => (["\x7b\"error\": \"" ++ e ++ "\"\x7d"], [.listPosts user_id])

/-! ## Agent orchestrator (`streamlit_agent/agent/agent_logic.py`)

The LLM backend and the MCP protocol client are parameters (`AgentEnv`).
`process_message` is embedded as a function returning the full observable
turn trace: final answer, extracted intents, the working context after the
turn, the log of tool executions performed and the number of LLM queries. -/

/-- A conversation message (`{"role": ..., "content": ...}`). -/
structure Message where
  role : String
  content : String
deriving Repr, DecidableEq

/-- A provider-native tool call (OpenAI format object with a `function`
attribute); `id` is `none` when the object lacks an `id` attribute. -/
structure RawToolCall where
  id : Option String
  name : String
  arguments : PyVal

/-- A normalized tool-call intent as built by `_extract_tool_calls`. -/
structure Intent where
  id : String
  name : String
  arguments : PyVal
deriving Repr

/-- An LLM `send_message` response: text content plus tool calls. -/
structure LLMResponse where
  content : String
  tool_calls : List RawToolCall

/-- External collaborators of the orchestrator, fixed for one turn:
the obtained tool catalogue, `llm.send_message`, `llm.stream_message` and
`mcp.call_tool` (a raised `RuntimeError` modelled as `.error`). -/
structure AgentEnv where
  tools : List PyVal
  send : List Message → List PyVal → LLMResponse
  stream : List Message → List String
  callTool : String → PyVal → Except String PyVal
  systemPrompt : String

/-- The parsing loop of `_extract_tool_calls`: a missing `id` attribute
defaults to `str(len(parsed_calls))` at the time of parsing. -/
def parseCalls (calls : List RawToolCall) : List Intent :=
  calls.foldl
    (fun acc c => acc ++ [⟨c.id.getD (toString acc.length), c.name, c.arguments⟩])
    []

/-- `_extract_tool_calls`: `None` when the response carries no (or an empty)
`tool_calls` structure, otherwise the normalized intent list. -/
def extractToolCalls (resp : LLMResponse) : Option (List Intent) :=
  if resp.tool_calls.isEmpty then Option.none
  else
    let parsed := parseCalls resp.tool_calls
    if parsed.isEmpty then Option.none else some parsed

/-- Python dict assignment `d[k] = v`: replace in place when the key exists,
append otherwise (insertion order preserved). -/
def dictUpsert (l : List (String × PyVal)) (k : String) (v : PyVal) :
    List (String × PyVal) :=
  if (PyVal.lookup l k).isSome then
    l.map (fun kv => if kv.1 = k then (k, v) else kv)
  else l ++ [(k, v)]

/-- The result recorded for one call by `_execute_tool_calls`: the tool's
result, or `{"error": str(e)}` when the protocol client raised. -/
def envelopeOf (env : AgentEnv) (c : Intent) : PyVal :=
  match env.callTool c.name c.arguments with
  | .ok v => v
  | .error e => .dict [("error", .str e)]

/-- `_execute_tool_calls`: run every call, recording each outcome in a dict
keyed by the call id.  The second component is the log of `mcp.call_tool`
invocations made, in order. -/
def executeToolCalls (env : AgentEnv) (calls : List Intent) :
    List (String × PyVal) × List (String × PyVal) :=
  calls.foldl
    (fun acc c =>
      (dictUpsert acc.1 c.id (envelopeOf env c), acc.2 ++ [(c.name, c.arguments)]))
    ([], [])

/-- The message appended for one tool result:
`{"role": "user", "content": f"Tool result: {json.dumps(result)}"}`. -/
def toolResultMessage (r : PyVal) : Message :=
  ⟨"user", "Tool result: " ++ PyVal.jsonDumps r⟩

/-- Observable trace of one `process_message` turn. -/
structure TurnTrace where
  answer : String
  tool_calls : Option (List Intent)
  finalMessages : List Message
  execLog : List (String × PyVal)
  queries : Nat
deriving Repr

/-- `AgentOrchestrator.process_message`. -/
def process_message (env : AgentEnv) (user_message : String)
    (conversation_history : List Message) : TurnTrace :=
  let messages := conversation_history ++
    [⟨"system", env.systemPrompt⟩, ⟨"user", user_message⟩]
  let tools := env.tools
  let response := env.send messages tools
  match extractToolCalls response with
  | some tool_calls =>
    let res := executeToolCalls env tool_calls
    let messages := messages ++ [⟨"assistant", response.content⟩]
    let messages := messages ++ res.1.map (fun kv => toolResultMessage kv.2)
    let final_response := env.send messages tools
    ⟨final_response.content, some tool_calls, messages, res.2, 2⟩
  | Option.none => ⟨response.content, Option.none, messages, [], 1⟩

/-- `AgentOrchestrator.stream_message`: the finite sequence of yielded
fragments. -/
def stream_message (env : AgentEnv) (user_message : String)
    (conversation_history : List Message) : List String :=
  let messages := conversation_history ++
    [⟨"system", env.systemPrompt⟩, ⟨"user", user_message⟩]
  let tools := env.tools
  if tools.isEmpty then env.stream messages
  else
    let response := env.send messages tools
    match extractToolCalls response with
    | some tool_calls =>
      (if response.content ≠ "" then [response.content, "\n\n"] else []) ++
      ["🔧 Executing tools...\n"] ++
      (let res := executeToolCalls env tool_calls
       let messages := messages ++ [⟨"assistant", response.content⟩]
       let messages := messages ++ res.1.map (fun kv => toolResultMessage kv.2)
       ["\n✅ Processing results...\n\n"] ++ env.stream messages)
    | Option.none => env.stream messages

/-! ## Heap model of the orchestrator's message-list handling

Claim C9 is about aliasing: `messages = conversation_history + [...]` builds a
fresh Python list and `messages.append(...)` mutates only that fresh list.  To
make mutation representable, message lists live in a store of cells addressed
by `Nat` references; `+` allocates, `append` writes in place. -/

/-- A heap of Python list objects holding `Message`s. -/
structure PyListStore where
  mem : Nat → List Message
  next : Nat

namespace PyListStore

/-- Read the list object behind a reference. -/
def read (s : PyListStore) (r : Nat) : List Message := s.mem r

/-- Overwrite the list object behind a reference (in-place mutation). -/
def write (s : PyListStore) (r : Nat) (xs : List Message) : PyListStore :=
  ⟨fun q => if q = r then xs else s.mem q, s.next⟩

/-- Allocate a fresh list object. -/
def alloc (s : PyListStore) (xs : List Message) : PyListStore × Nat :=
  (⟨fun q => if q = s.next then xs else s.mem q, s.next + 1⟩, s.next)

/-- Python list `+`: allocates a new list, leaves both operands untouched. -/
def concat (s : PyListStore) (r1 r2 : Nat) : PyListStore × Nat :=
  s.alloc (s.read r1 ++ s.read r2)

/-- Python `lst.append(m)`: in-place mutation of the list behind `r`. -/
def append (s : PyListStore) (r : Nat) (m : Message) : PyListStore :=
  s.write r (s.read r ++ [m])

end PyListStore

/-- `process_message` on the heap model: `conversation_history` is passed by
reference (`histRef`); returns the store after the turn and the reference of
the orchestrator's own working list. -/
def process_message_heap (env : AgentEnv) (user_message : String)
    (histRef : Nat) (s0 : PyListStore) : PyListStore × Nat :=
  let (s1, litRef) := s0.alloc
    [⟨"system", env.systemPrompt⟩, ⟨"user", user_message⟩]
  let (s2, msgsRef) := s1.concat histRef litRef
  let response := env.send (s2.read msgsRef) env.tools
  match extractToolCalls response with
  | some tool_calls =>
    let res := executeToolCalls env tool_calls
    let s3 := s2.append msgsRef ⟨"assistant", response.content⟩
    let s4 := (res.1.map (fun kv => toolResultMessage kv.2)).foldl
      (fun st m => st.append msgsRef m) s3
    (s4, msgsRef)
  | Option.none => (s2, msgsRef)

/-- `stream_message` on the heap model (the fragments it yields are those of
`stream_message`; only the store effects matter here). -/
def stream_message_heap (env : AgentEnv) (user_message : String)
    (histRef : Nat) (s0 : PyListStore) : PyListStore × Nat :=
  let (s1, litRef) := s0.alloc
    [⟨"system", env.systemPrompt⟩, ⟨"user", user_message⟩]
  let (s2, msgsRef) := s1.concat histRef litRef
  if env.tools.isEmpty then (s2, msgsRef)
  else
    let response := env.send (s2.read msgsRef) env.tools
    match extractToolCalls response with
    | some tool_calls =>
      let res := executeToolCalls env tool_calls
      let s3 := s2.append msgsRef ⟨"assistant", response.content⟩
      let s4 := (res.1.map (fun kv => toolResultMessage kv.2)).foldl
        (fun st m => st.append msgsRef m) s3
      (s4, msgsRef)
    | Option.none => (s2, msgsRef)

/-! ## Helper notions used by the theorem statements -/

/-- The `jsonrpc`/`method`/`params`/`id` payload for `initialize`. -/
def initPayload (params idv : PyVal) : PyVal :=
  .dict [("jsonrpc", .str "2.0"), ("method", .str "initialize"),
         ("params", params), ("id", idv)]

/-- The `jsonrpc`/`method`/`params`/`id` payload for `tools/call` with a
string tool name and a dict of arguments. -/
def toolsCallPayload (nm : String) (args : List (String × PyVal)) (idv : PyVal) :
    PyVal :=
  .dict [("jsonrpc", .str "2.0"), ("method", .str "tools/call"),
         ("params", .dict [("name", .str nm), ("arguments", .dict args)]),
         ("id", idv)]

/-- The request's correlation id as `handle_jsonrpc` reads it:
`payload.get("id")` for an object payload, `None` otherwise. -/
def requestId : PyVal → PyVal
  | .dict l => PyVal.lookupD l "id" .none
  | _ => .none

/-- Field `k` of the `result` object of a successful dispatcher response. -/
def resultField (r : Except String PyVal) (k : String) : Option PyVal :=
  match r with
  | .ok resp => (resp.attr "result").bind (fun v => v.attr k)
  | .error _ => Option.none

/-- The argument-validation checks `call_tool` performs, with the exact
`ValueError` message each raises (`None` when the arguments pass, or the tool
performs no argument validation). -/
def validationMsg (req : ToolCall) : Option String :=
  if req.name = "get_post" then
    let post_id := PyVal.lookupD req.arguments "post_id" .none
    if ¬ post_id.isInt ∨ post_id.toInt < 1 ∨ post_id.toInt > 100 then
      some "post_id must be an integer between 1 and 100"
    else Option.none
  else if req.name = "get_comments_for_post" then
    let post_id := PyVal.lookupD req.arguments "post_id" .none
    if ¬ post_id.isInt then some "post_id must be an integer" else Option.none
  else if req.name = "get_user" then
    let user_id := PyVal.lookupD req.arguments "user_id" .none
    if ¬ user_id.isInt ∨ user_id.toInt < 1 ∨ user_id.toInt > 10 then
      some "user_id must be an integer between 1 and 10"
    else Option.none
  else Option.none

/-- A Content Provider whose lookups all report the resource absent
(`get_post`/`get_user` return `None`, the list operations return `[]`). -/
def absentProvider : Provider where
  get_post := fun _ => .ok .none
  list_posts := fun _ => .ok (.list [])
  get_comments_for_post := fun _ => .ok (.list [])
  get_user := fun _ => .ok .none
  list_users := .ok (.list [])

/-! ## Theorems -/

/-- C1: for every `initialize` request, the negotiated `protocolVersion`
equals the requested value when that value is a member of the supported list,
and equals `"2025-11-05"` when the requested value is absent, non-string, or
not in the list; in particular requesting `"2099-01-01"` negotiates
`"2025-11-05"`. -/
theorem initialize_version_negotiation (p : Provider) (params idv : PyVal) :
    (∀ s, s ∈ SUPPORTED_PROTOCOL_VERSIONS →
        params.attr "protocolVersion" = some (.str s) →
        resultField (handle_jsonrpc p (initPayload params idv)) "protocolVersion"
          = some (.str s))
    ∧ ((∀ s, s ∈ SUPPORTED_PROTOCOL_VERSIONS →
          params.attr "protocolVersion" ≠ some (.str s)) →
        resultField (handle_jsonrpc p (initPayload params idv)) "protocolVersion"
          = some (.str "2025-11-05"))
    ∧ resultField
        (handle_jsonrpc p
          (initPayload (.dict [("protocolVersion", .str "2099-01-01")]) idv))
        "protocolVersion" = some (.str "2025-11-05") := by
  refine ⟨?_, ?_, ?_⟩
  · intro s hs ha
    cases params with
    | dict l =>
      simp only [PyVal.attr] at ha
      simp [handle_jsonrpc, initPayload, dispatchMethod, PyVal.lookup,
            PyVal.lookupD, resultField, PyVal.attr, rpcResult, ha, hs]
    | none => simp [PyVal.attr] at ha
    | bool b => simp [PyVal.attr] at ha
    | int n => simp [PyVal.attr] at ha
    | str s => simp [PyVal.attr] at ha
    | list xs => simp [PyVal.attr] at ha
  · intro hne
    cases params with
    | dict l =>
      rcases h : PyVal.lookup l "protocolVersion" with _ | v
      · simp [handle_jsonrpc, initPayload, dispatchMethod, PyVal.lookup,
              PyVal.lookupD, resultField, PyVal.attr, rpcResult, h]
      · cases v with
        | str s =>
          by_cases hmem : s ∈ SUPPORTED_PROTOCOL_VERSIONS
          · exact absurd (by simpa [PyVal.attr] using h) (hne s hmem)
          · simp [handle_jsonrpc, initPayload, dispatchMethod, PyVal.lookup,
                  PyVal.lookupD, resultField, PyVal.attr, rpcResult, h, hmem]
        | none =>
          simp [handle_jsonrpc, initPayload, dispatchMethod, PyVal.lookup,
                PyVal.lookupD, resultField, PyVal.attr, rpcResult, h]
        | bool b =>
          simp [handle_jsonrpc, initPayload, dispatchMethod, PyVal.lookup,
                PyVal.lookupD, resultField, PyVal.attr, rpcResult, h]
        | int n =>
          simp [handle_jsonrpc, initPayload, dispatchMethod, PyVal.lookup,
                PyVal.lookupD, resultField, PyVal.attr, rpcResult, h]
        | list xs =>
          simp [handle_jsonrpc, initPayload, dispatchMethod, PyVal.lookup,
                PyVal.lookupD, resultField, PyVal.attr, rpcResult, h]
        | dict l2 =>
          simp [handle_jsonrpc, initPayload, dispatchMethod, PyVal.lookup,
                PyVal.lookupD, resultField, PyVal.attr, rpcResult, h]
    | none =>
      simp [handle_jsonrpc, initPayload, dispatchMethod, PyVal.lookup,
            PyVal.lookupD, resultField, PyVal.attr, rpcResult]
    | bool b =>
      simp [handle_jsonrpc, initPayload, dispatchMethod, PyVal.lookup,
            PyVal.lookupD, resultField, PyVal.attr, rpcResult]
    | int n =>
      simp [handle_jsonrpc, initPayload, dispatchMethod, PyVal.lookup,
            PyVal.lookupD, resultField, PyVal.attr, rpcResult]
    | str s =>
      simp [handle_jsonrpc, initPayload, dispatchMethod, PyVal.lookup,
            PyVal.lookupD, resultField, PyVal.attr, rpcResult]
    | list xs =>
      simp [handle_jsonrpc, initPayload, dispatchMethod, PyVal.lookup,
            PyVal.lookupD, resultField, PyVal.attr, rpcResult]
  · rfl

/-- Witness for C1: requesting the supported version `"2025-06-18"`
negotiates exactly that version. -/
theorem initialize_version_negotiation_witness :
    ("2025-06-18" ∈ SUPPORTED_PROTOCOL_VERSIONS) ∧
    resultField
      (handle_jsonrpc absentProvider
        (initPayload (.dict [("protocolVersion", .str "2025-06-18")]) (.int 7)))
      "protocolVersion" = some (.str "2025-06-18") :=
  ⟨by decide,
   (initialize_version_negotiation absentProvider
      (.dict [("protocolVersion", .str "2025-06-18")]) (.int 7)).1
     "2025-06-18" (by decide) rfl⟩

/-- C4: for a `tools/call` request whose invocation produces an envelope, the
JSON-RPC result holds exactly one text block with the stringified envelope
data and `isError = false` when the envelope succeeded, and an empty content
list with `isError = true` when it failed. -/
theorem tools_call_result_mirrors_envelope (p : Provider) (nm : String)
    (args : List (String × PyVal)) (idv : PyVal) (h : nm ≠ "") :
    resultField (handle_jsonrpc p (toolsCallPayload nm args idv)) "isError"
      = some (.bool (¬ (call_tool p ⟨nm, args⟩).1.success))
    ∧ resultField (handle_jsonrpc p (toolsCallPayload nm args idv)) "content"
      = some (if (call_tool p ⟨nm, args⟩).1.success
          then .list [.dict [("type", .str "text"),
                             ("text", .str (PyVal.pyStr (call_tool p ⟨nm, args⟩).1.data))]]
          else .list []) := by
  constructor <;>
    simp [handle_jsonrpc, toolsCallPayload, dispatchMethod, PyVal.lookup,
          PyVal.lookupD, PyVal.truthy, h, resultField, PyVal.attr, rpcResult]

/-- Witness for C4: calling `list_users` against the all-absent provider
succeeds, so the result carries one text block and `isError = false`. -/
theorem tools_call_result_mirrors_envelope_witness :
    ("list_users" ≠ "") ∧
    (resultField (handle_jsonrpc absentProvider (toolsCallPayload "list_users" [] (.int 3))) "isError"
        = some (.bool (¬ (call_tool absentProvider ⟨"list_users", []⟩).1.success))
      ∧ resultField (handle_jsonrpc absentProvider (toolsCallPayload "list_users" [] (.int 3))) "content"
        = some (if (call_tool absentProvider ⟨"list_users", []⟩).1.success
            then .list [.dict [("type", .str "text"),
                               ("text", .str (PyVal.pyStr (call_tool absentProvider ⟨"list_users", []⟩).1.data))]]
            else .list [])) :=
  ⟨by decide,
   tools_call_result_mirrors_envelope absentProvider "list_users" [] (.int 3)
     (by decide)⟩

/-- Every outcome of `dispatchMethod` is an uncaught exception, a result
response with the request id, or an error response with the request id. -/
lemma dispatchMethod_shape (p : Provider) (m prm i : PyVal) :
    (∃ e, dispatchMethod p m prm i = .error e)
    ∨ (∃ r, dispatchMethod p m prm i = .ok (rpcResult r i))
    ∨ (∃ c msg, dispatchMethod p m prm i = .ok (rpcError c msg i)) := by
  simp only [dispatchMethod]
  repeat' split
  all_goals first
    | exact Or.inl ⟨_, rfl⟩
    | exact Or.inr (Or.inl ⟨_, rfl⟩)
    | exact Or.inr (Or.inr ⟨_, _, rfl⟩)

/-- Every outcome of `handle_jsonrpc` is an uncaught exception, a result
response with the request's id, or an error response with the request's id. -/
lemma handle_jsonrpc_shape (p : Provider) (payload : PyVal) :
    (∃ e, handle_jsonrpc p payload = .error e)
    ∨ (∃ r, handle_jsonrpc p payload = .ok (rpcResult r (requestId payload)))
    ∨ (∃ c msg, handle_jsonrpc p payload = .ok (rpcError c msg (requestId payload))) := by
  cases payload with
  | dict fields =>
    simp only [handle_jsonrpc, requestId]
    split
    · exact dispatchMethod_shape p _ _ _
    · exact Or.inr (Or.inr ⟨_, _, rfl⟩)
  | none => exact Or.inr (Or.inr ⟨_, _, rfl⟩)
  | bool b => exact Or.inr (Or.inr ⟨_, _, rfl⟩)
  | int n => exact Or.inr (Or.inr ⟨_, _, rfl⟩)
  | str s => exact Or.inr (Or.inr ⟨_, _, rfl⟩)
  | list xs => exact Or.inr (Or.inr ⟨_, _, rfl⟩)

/-- C5: every response the dispatcher returns carries exactly one of the
fields `result` and `error`, and its `id` equals the request's id (`null`
when the payload is not an object). -/
theorem rpc_response_exclusive_and_id_echo (p : Provider) (payload resp : PyVal)
    (h : handle_jsonrpc p payload = .ok resp) :
    (resp.hasKey "result" = true ↔ resp.hasKey "error" = false)
    ∧ resp.attr "id" = some (requestId payload) := by
  rcases handle_jsonrpc_shape p payload with ⟨e, he⟩ | ⟨r, hr⟩ | ⟨c, msg, hc⟩
  · rw [he] at h; cases h
  · rw [hr] at h
    cases h
    exact ⟨by simp [rpcResult, PyVal.hasKey, PyVal.lookup, PyVal.attr],
           by simp [rpcResult, PyVal.lookup, PyVal.attr]⟩
  · rw [hc] at h
    cases h
    exact ⟨by simp [rpcError, PyVal.hasKey, PyVal.lookup, PyVal.attr],
           by simp [rpcError, PyVal.lookup, PyVal.attr]⟩

/-- Witness for C5: a non-object payload draws an error response whose id is
`null`, with `error` set and `result` absent. -/
theorem rpc_response_exclusive_and_id_echo_witness :
    (handle_jsonrpc absentProvider (.int 5)
        = .ok (rpcError (-32600) "Invalid Request" .none))
    ∧ (((rpcError (-32600) "Invalid Request" .none).hasKey "result" = true
          ↔ (rpcError (-32600) "Invalid Request" .none).hasKey "error" = false)
        ∧ (rpcError (-32600) "Invalid Request" .none).attr "id"
            = some (requestId (.int 5))) :=
  ⟨rfl, rpc_response_exclusive_and_id_echo absentProvider (.int 5) _ rfl⟩

/-- C7: whenever `call_tool`'s argument validation rejects a request, the
raised `ValueError` is caught and returned as an envelope with
`success = false` and the descriptive message — it never escapes the executor
and the Content Provider is never consulted; in particular
`get_user(user_id=11)` yields `isError = true` at the JSON-RPC level and an
envelope error text naming the 1–10 bound. -/
theorem validation_failure_yields_error_envelope (p : Provider) (req : ToolCall)
    (msg : String) (h : validationMsg req = some msg) :
    call_tool p req = ({ success := false, data := .none, error := some msg }, [])
    ∧ (call_tool p ⟨"get_user", [("user_id", .int 11)]⟩).1.error
        = some "user_id must be an integer between 1 and 10"
    ∧ resultField (handle_jsonrpc p
        (toolsCallPayload "get_user" [("user_id", .int 11)] .none)) "isError"
        = some (.bool true)
    ∧ resultField (handle_jsonrpc p
        (toolsCallPayload "get_user" [("user_id", .int 11)] .none)) "content"
        = some (.list []) := by
  refine ⟨?_, rfl, rfl, rfl⟩
  simp only [validationMsg] at h
  simp only [call_tool, callToolBody]
  split at h
  · rename_i hname
    split at h
    · rename_i hcond
      cases h
      simp only [Bool.not_eq_true, gt_iff_lt] at hcond
      simp [hname, hcond]
    · simp at h
  · split at h
    · rename_i hname1 hname2
      split at h
      · rename_i hcond
        cases h
        simp only [Bool.not_eq_true, gt_iff_lt] at hcond
        simp [hname2, hcond]
      · simp at h
    · split at h
      · rename_i hname1 hname2 hname3
        split at h
        · rename_i hcond
          cases h
          simp only [Bool.not_eq_true, gt_iff_lt] at hcond
          simp [hname3, hcond]
        · simp at h
      · simp at h

/-- Witness for C7: the `get_user(user_id=11)` validation failure. -/
theorem validation_failure_yields_error_envelope_witness :
    (validationMsg ⟨"get_user", [("user_id", .int 11)]⟩
        = some "user_id must be an integer between 1 and 10")
    ∧ (call_tool absentProvider ⟨"get_user", [("user_id", .int 11)]⟩
        = ({ success := false, data := .none,
             error := some "user_id must be an integer between 1 and 10" }, [])
      ∧ (call_tool absentProvider ⟨"get_user", [("user_id", .int 11)]⟩).1.error
          = some "user_id must be an integer between 1 and 10"
      ∧ resultField (handle_jsonrpc absentProvider
          (toolsCallPayload "get_user" [("user_id", .int 11)] .none)) "isError"
          = some (.bool true)
      ∧ resultField (handle_jsonrpc absentProvider
          (toolsCallPayload "get_user" [("user_id", .int 11)] .none)) "content"
          = some (.list [])) :=
  ⟨rfl, validation_failure_yields_error_envelope absentProvider _ _ rfl⟩

/-- C2 counterexample: `tools/call get_post` with `post_id = 999` against a
provider reporting absence does NOT return a success envelope tagged 404 —
the 1..100 validation rejects 999 first, so the envelope has
`success = false` and no provider delegation happens. -/
theorem get_post_999_rejected_not_404 :
    call_tool absentProvider ⟨"get_post", [("post_id", .int 999)]⟩
      = ({ success := false, data := .none,
           error := some "post_id must be an integer between 1 and 100" }, []) := rfl

/-- C2 amended: for `get_post` with an in-bounds `post_id` (1..100) where the
provider reports absence, `call_tool` returns `success = true` with null data
(no 404 tag); the standalone `execute_get_post` executor is the one that maps
absence to a status-404 tagged payload; `post_id = 999` is rejected by
validation with `success = false`. -/
theorem get_post_absent_envelope (p : Provider) (pid : Int)
    (h1 : 1 ≤ pid) (h2 : pid ≤ 100) (habs : p.get_post pid = .ok .none) :
    (call_tool p ⟨"get_post", [("post_id", .int pid)]⟩).1
        = { success := true, data := .none, error := Option.none }
    ∧ execute_get_post p (.int pid)
        = ["\x7b\"error\": \"Post " ++ PyVal.pyStr (.int pid)
             ++ " not found\", \"status\": 404\x7d"]
    ∧ (call_tool p ⟨"get_post", [("post_id", .int 999)]⟩).1.success = false := by
  have hc : ¬ (pid < 1 ∨ pid > 100) := by omega
  refine ⟨?_, ?_, rfl⟩
  · simp [call_tool, callToolBody, PyVal.lookupD, PyVal.lookup,
          PyVal.isInt, PyVal.toInt, hc, habs]
  · simp [execute_get_post, PyVal.isInt, PyVal.toInt, hc, habs]

/-- Witness for the C2 amendment at `post_id = 42`. -/
theorem get_post_absent_envelope_witness :
    ((1 : Int) ≤ 42 ∧ (42 : Int) ≤ 100
      ∧ absentProvider.get_post 42 = .ok .none)
    ∧ ((call_tool absentProvider ⟨"get_post", [("post_id", .int 42)]⟩).1
          = { success := true, data := .none, error := Option.none }
      ∧ execute_get_post absentProvider (.int 42)
          = ["\x7b\"error\": \"Post " ++ PyVal.pyStr (.int 42)
               ++ " not found\", \"status\": 404\x7d"]
      ∧ (call_tool absentProvider ⟨"get_post", [("post_id", .int 999)]⟩).1.success
          = false) :=
  ⟨⟨by decide, by decide, rfl⟩,
   get_post_absent_envelope absentProvider 42 (by decide) (by decide) rfl⟩

/-- C6 counterexample: `tools/call list_posts` with the out-of-contract
`user_id = 11` is NOT rejected: `call_tool` delegates it to the Content
Provider as-is and returns `success = true` with the provider's data. -/
theorem list_posts_invalid_user_id_not_rejected :
    call_tool absentProvider ⟨"list_posts", [("user_id", .int 11)]⟩
      = ({ success := true, data := .list [], error := Option.none },
         [.listPosts (.int 11)]) := rfl

/-- C6 amended: `call_tool`'s `list_posts` branch performs no `user_id`
validation — any present value is passed to the Content Provider unvalidated
and the envelope mirrors the provider outcome; only the standalone
`execute_list_posts` executor rejects a present `user_id` outside 1..10 with
a `success = false` style error payload before delegating. -/
theorem list_posts_unvalidated_delegation (p : Provider) (u v : PyVal)
    (hok : p.list_posts u = .ok v) :
    call_tool p ⟨"list_posts", [("user_id", u)]⟩
        = ({ success := true, data := v, error := Option.none }, [.listPosts u])
    ∧ (∀ w : PyVal, w.isNone = false →
        (¬ w.isInt = true ∨ w.toInt < 1 ∨ w.toInt > 10) →
        execute_list_posts p w
          = (["\x7b\"error\": \"Invalid user_id. Must be integer between 1 and 10\"\x7d"],
             [])) := by
  constructor
  · simp [call_tool, callToolBody, PyVal.lookupD, PyVal.lookup, hok]
  · intro w hw hbad
    unfold execute_list_posts
    rw [if_pos ⟨hw, hbad⟩]

/-- Witness for the C6 amendment at `user_id = 11`. -/
theorem list_posts_unvalidated_delegation_witness :
    (absentProvider.list_posts (.int 11) = .ok (.list []))
    ∧ (call_tool absentProvider ⟨"list_posts", [("user_id", .int 11)]⟩
          = ({ success := true, data := .list [], error := Option.none },
             [.listPosts (.int 11)])
      ∧ (∀ w : PyVal, w.isNone = false →
          (¬ w.isInt = true ∨ w.toInt < 1 ∨ w.toInt > 10) →
          execute_list_posts absentProvider w
            = (["\x7b\"error\": \"Invalid user_id. Must be integer between 1 and 10\"\x7d"],
               []))) :=
  ⟨rfl, list_posts_unvalidated_delegation absentProvider (.int 11) (.list []) rfl⟩

/-- C10: a well-formed `tools/call` payload whose `params` is a list crashes
the dispatcher (uncaught `AttributeError` reading `params.get("name")`, so no
JSON-RPC error response is returned), while an `initialize` payload with the
same non-object `params` shape is tolerated and negotiates the default
version. -/
theorem tools_call_non_object_params_crashes :
    handle_jsonrpc absentProvider
        (.dict [("jsonrpc", .str "2.0"), ("method", .str "tools/call"),
                ("params", .list [.str "x"]), ("id", .int 1)])
      = .error "AttributeError: object has no attribute get"
    ∧ resultField
        (handle_jsonrpc absentProvider
          (.dict [("jsonrpc", .str "2.0"), ("method", .str "initialize"),
                  ("params", .list [.str "x"]), ("id", .int 1)]))
        "protocolVersion" = some (.str "2025-11-05") := ⟨rfl, rfl⟩

/-- C8: with an empty tool catalogue for the turn, `stream_message` yields
exactly the provider's raw token stream for the built context, with no
injected marker fragments. -/
theorem stream_empty_catalogue_passthrough (env : AgentEnv) (u : String)
    (hist : List Message) (h : env.tools = []) :
    stream_message env u hist
      = env.stream (hist ++ [⟨"system", env.systemPrompt⟩, ⟨"user", u⟩]) := by
  simp [stream_message, h]

/-- An orchestrator environment whose tool catalogue came back empty. -/
def emptyCatalogueEnv : AgentEnv where
  tools := []
  send := fun _ _ => ⟨"unused", []⟩
  stream := fun ms => ["tok1", "tok2", toString ms.length]
  callTool := fun _ _ => .ok .none
  systemPrompt := "You are a helpful AI assistant"

/-- Witness for C8 on a concrete empty-catalogue environment. -/
theorem stream_empty_catalogue_passthrough_witness :
    emptyCatalogueEnv.tools = []
    ∧ stream_message emptyCatalogueEnv "hi" []
        = emptyCatalogueEnv.stream
            [⟨"system", emptyCatalogueEnv.systemPrompt⟩, ⟨"user", "hi"⟩] :=
  ⟨rfl, stream_empty_catalogue_passthrough emptyCatalogueEnv "hi" [] rfl⟩

/-- Appending a binding for a different key preserves a failed dict lookup. -/
lemma lookup_append_single_none (l : List (String × PyVal)) (k k' : String)
    (v : PyVal) (h : PyVal.lookup l k = Option.none) (hne : k ≠ k') :
    PyVal.lookup (l ++ [(k', v)]) k = Option.none := by
  induction l with
  | nil => simp [PyVal.lookup, Ne.symm hne]
  | cons kv rest ih =>
    rw [List.cons_append]
    cases kv with
    | mk k0 v0 =>
      by_cases hk : k0 = k
      · simp [PyVal.lookup, hk] at h
      · simp only [PyVal.lookup, if_neg hk] at h ⊢
        exact ih h

/-- Assigning a fresh key to a Python dict appends the binding. -/
lemma dictUpsert_fresh (l : List (String × PyVal)) (k : String) (v : PyVal)
    (h : PyVal.lookup l k = Option.none) :
    dictUpsert l k v = l ++ [(k, v)] := by
  simp [dictUpsert, h]

/-- The `_execute_tool_calls` loop with pairwise-distinct call ids and an
accumulator fresh for all of them: every result is appended, in issue order. -/
lemma executeToolCalls_go (env : AgentEnv) (calls : List Intent)
    (acc : List (String × PyVal) × List (String × PyVal))
    (hnd : (calls.map Intent.id).Nodup)
    (hfresh : ∀ c ∈ calls, PyVal.lookup acc.1 c.id = Option.none) :
    calls.foldl
      (fun acc c =>
        (dictUpsert acc.1 c.id (envelopeOf env c),
         acc.2 ++ [(c.name, c.arguments)]))
      acc
    = (acc.1 ++ calls.map (fun c => (c.id, envelopeOf env c)),
       acc.2 ++ calls.map (fun c => (c.name, c.arguments))) := by
  induction calls generalizing acc with
  | nil => simp
  | cons c rest ih =>
    rw [List.map_cons, List.nodup_cons] at hnd
    rw [List.foldl_cons, dictUpsert_fresh _ _ _ (hfresh c (List.mem_cons_self c rest))]
    rw [ih _ hnd.2]
    · simp
    · intro c' hc'
      refine lookup_append_single_none _ _ _ _ (hfresh c' (List.mem_cons_of_mem _ hc')) ?_
      intro he
      exact hnd.1 (he ▸ List.mem_map_of_mem Intent.id hc')

/-- With pairwise-distinct call ids, `_execute_tool_calls` produces one
result entry per issued call, keyed by call id, in issue order, and executes
every call. -/
lemma executeToolCalls_eq (env : AgentEnv) (calls : List Intent)
    (hnd : (calls.map Intent.id).Nodup) :
    executeToolCalls env calls
      = (calls.map (fun c => (c.id, envelopeOf env c)),
         calls.map (fun c => (c.name, c.arguments))) := by
  have h := executeToolCalls_go env calls ([], []) hnd
    (fun c _ => rfl)
  simpa [executeToolCalls] using h

/-- A successful extraction yields a non-empty intent list. -/
lemma extractToolCalls_ne_nil {resp : LLMResponse} {calls : List Intent}
    (h : extractToolCalls resp = some calls) : calls ≠ [] := by
  simp only [extractToolCalls] at h
  split at h
  · cases h
  · split at h
    · cases h
    · rename_i hne
      cases h
      simpa [List.isEmpty_iff] using hne

/-- C3 (amended): when the first reply's N intents carry pairwise-distinct
call ids, `process_message` executes all N intents in issue order (a failing
call is recorded as its own error envelope and cancels no sibling), appends
exactly one assistant placeholder followed by exactly N tool-result messages
(one envelope per call id, in issue order), and queries the provider exactly
one more time. -/
theorem process_message_tool_round (env : AgentEnv) (u : String)
    (hist : List Message) (calls : List Intent)
    (hcalls : (process_message env u hist).tool_calls = some calls)
    (hnd : (calls.map Intent.id).Nodup) :
    (process_message env u hist).finalMessages
      = (hist ++ [⟨"system", env.systemPrompt⟩, ⟨"user", u⟩])
        ++ [⟨"assistant",
             (env.send (hist ++ [⟨"system", env.systemPrompt⟩, ⟨"user", u⟩])
               env.tools).content⟩]
        ++ calls.map (fun c => toolResultMessage (envelopeOf env c))
    ∧ (process_message env u hist).execLog
        = calls.map (fun c => (c.name, c.arguments))
    ∧ (process_message env u hist).queries = 2
    ∧ 1 ≤ calls.length := by
  simp only [process_message] at hcalls ⊢
  rcases hx : extractToolCalls
      (env.send (hist ++ [⟨"system", env.systemPrompt⟩, ⟨"user", u⟩]) env.tools)
    with _ | tc
  · rw [hx] at hcalls
    cases hcalls
  · rw [hx] at hcalls ⊢
    simp only at hcalls
    cases hcalls
    have hlen : 1 ≤ calls.length :=
      List.length_pos.mpr (extractToolCalls_ne_nil hx)
    dsimp only
    rw [executeToolCalls_eq env calls hnd]
    refine ⟨?_, rfl, rfl, hlen⟩
    simp [List.map_map, Function.comp, List.append_assoc]

/-- An orchestrator environment whose first reply carries two tool-call
intents that share the call id `"a"`. -/
def dupIntentEnv : AgentEnv where
  tools := [.dict [("name", .str "get_post")]]
  send := fun ms _ =>
    if ms.length = 2 then
      ⟨"calling tools",
       [⟨some "a", "get_post", .dict [("post_id", .int 1)]⟩,
        ⟨some "a", "get_user", .dict [("user_id", .int 2)]⟩]⟩
    else ⟨"done", []⟩
  stream := fun _ => []
  callTool := fun nm _ => .ok (.str nm)
  systemPrompt := "sys"

/-- C3 counterexample: a first reply carrying N = 2 intents whose call ids
collide.  All 2 are executed, but the result dict keyed by call id collapses
them, so only 1 tool-result message is appended (finalMessages has length 4 =
2 context + 1 assistant + 1 tool result, not the claimed 2 + 1 + 2 = 5). -/
theorem process_message_duplicate_ids_counterexample :
    ((process_message dupIntentEnv "hi" []).tool_calls.map List.length = some 2)
    ∧ (process_message dupIntentEnv "hi" []).execLog.length = 2
    ∧ (process_message dupIntentEnv "hi" []).finalMessages.length = 4 :=
  ⟨rfl, rfl, rfl⟩

/-- An orchestrator environment whose first reply carries two tool-call
intents with distinct ids, the second of which fails at the protocol
client. -/
def twoIntentEnv : AgentEnv where
  tools := [.dict [("name", .str "get_post")]]
  send := fun ms _ =>
    if ms.length = 2 then
      ⟨"calling tools",
       [⟨some "a", "get_post", .dict [("post_id", .int 1)]⟩,
        ⟨some "b", "bad_tool", .dict []⟩]⟩
    else ⟨"done", []⟩
  stream := fun _ => []
  callTool := fun nm _ =>
    if nm = "get_post" then .ok (.dict [("id", .int 1)])
    else .error "Tool call failed: Unknown tool"
  systemPrompt := "sys"

/-- Witness for the C3 amendment: two distinct-id intents, one of which
fails, are both executed and folded in issue order with one second query. -/
theorem process_message_tool_round_witness :
    ((process_message twoIntentEnv "hi" []).tool_calls
        = some [⟨"a", "get_post", .dict [("post_id", .int 1)]⟩,
                ⟨"b", "bad_tool", .dict []⟩]
      ∧ (([⟨"a", "get_post", .dict [("post_id", .int 1)]⟩,
           ⟨"b", "bad_tool", .dict []⟩] : List Intent).map Intent.id).Nodup)
    ∧ ((process_message twoIntentEnv "hi" []).finalMessages
        = ([] ++ [⟨"system", twoIntentEnv.systemPrompt⟩, ⟨"user", "hi"⟩])
          ++ [⟨"assistant",
               (twoIntentEnv.send
                 ([] ++ [⟨"system", twoIntentEnv.systemPrompt⟩, ⟨"user", "hi"⟩])
                 twoIntentEnv.tools).content⟩]
          ++ ([⟨"a", "get_post", .dict [("post_id", .int 1)]⟩,
               ⟨"b", "bad_tool", .dict []⟩] : List Intent).map
              (fun c => toolResultMessage (envelopeOf twoIntentEnv c))
      ∧ (process_message twoIntentEnv "hi" []).execLog
        = ([⟨"a", "get_post", .dict [("post_id", .int 1)]⟩,
            ⟨"b", "bad_tool", .dict []⟩] : List Intent).map
              (fun c => (c.name, c.arguments))
      ∧ (process_message twoIntentEnv "hi" []).queries = 2
      ∧ 1 ≤ ([⟨"a", "get_post", .dict [("post_id", .int 1)]⟩,
              ⟨"b", "bad_tool", .dict []⟩] : List Intent).length) :=
  ⟨⟨rfl, by simp⟩,
   process_message_tool_round twoIntentEnv "hi" []
     [⟨"a", "get_post", .dict [("post_id", .int 1)]⟩, ⟨"b", "bad_tool", .dict []⟩]
     rfl (by simp)⟩

/-- Appending to one list object leaves every other list object unchanged. -/
lemma mem_append_ne (s : PyListStore) (r r' : Nat) (m : Message)
    (h : ¬ r' = r) : (s.append r m).mem r' = s.mem r' := by
  simp [PyListStore.append, PyListStore.write, h]

/-- Allocation leaves every previously allocated list object unchanged. -/
lemma mem_alloc_ne (s : PyListStore) (xs : List Message) (r' : Nat)
    (h : ¬ r' = s.next) : ((s.alloc xs).1).mem r' = s.mem r' := by
  simp [PyListStore.alloc, h]

/-- A whole loop of appends to one list object leaves every other list object
unchanged. -/
lemma foldl_append_mem_ne (ms : List Message) (st : PyListStore) (r r' : Nat)
    (h : ¬ r' = r) :
    (ms.foldl (fun st m => st.append r m) st).mem r' = st.mem r' := by
  induction ms generalizing st with
  | nil => rfl
  | cons m rest ih => rw [List.foldl_cons, ih, mem_append_ne _ _ _ _ h]

/-- C9: neither `process_message` nor `stream_message` mutates the
caller-supplied `conversation_history` list: the orchestrator concatenates it
into a freshly allocated working list and appends only to that fresh list. -/
theorem history_not_mutated (env : AgentEnv) (u : String) (histRef : Nat)
    (s0 : PyListStore) (h : histRef < s0.next) :
    ((process_message_heap env u histRef s0).1).mem histRef = s0.mem histRef
    ∧ ((stream_message_heap env u histRef s0).1).mem histRef = s0.mem histRef := by
  have hne1 : ¬ histRef = s0.next := by omega
  have hne2 : ¬ histRef = s0.next + 1 := by omega
  constructor
  · dsimp only [process_message_heap, PyListStore.alloc, PyListStore.concat,
                PyListStore.read]
    split
    · rw [foldl_append_mem_ne _ _ _ _ hne2, mem_append_ne _ _ _ _ hne2]
      simp [hne1, hne2]
    · simp [hne1, hne2]
  · dsimp only [stream_message_heap, PyListStore.alloc, PyListStore.concat,
                PyListStore.read]
    split
    · simp [hne1, hne2]
    · split
      · rw [foldl_append_mem_ne _ _ _ _ hne2, mem_append_ne _ _ _ _ hne2]
        simp [hne1, hne2]
      · simp [hne1, hne2]

/-- An orchestrator environment for exercising the heap model. -/
def heapWitnessEnv : AgentEnv where
  tools := [.dict [("name", .str "get_post")]]
  send := fun ms _ =>
    if ms.length = 3 then
      ⟨"calling", [⟨some "a", "get_post", .dict [("post_id", .int 1)]⟩]⟩
    else ⟨"done", []⟩
  stream := fun _ => ["chunk"]
  callTool := fun _ _ => .ok (.dict [("id", .int 1)])
  systemPrompt := "sys"

/-- A heap holding one caller-owned history list at reference 0. -/
def heapWitnessStore : PyListStore :=
  ⟨fun r => if r = 0 then [⟨"user", "earlier turn"⟩] else [], 1⟩

/-- Witness for C9: a turn that does execute a tool round leaves the history
cell at reference 0 untouched. -/
theorem history_not_mutated_witness :
    (0 < heapWitnessStore.next)
    ∧ (((process_message_heap heapWitnessEnv "hi" 0 heapWitnessStore).1).mem 0
          = heapWitnessStore.mem 0
      ∧ ((stream_message_heap heapWitnessEnv "hi" 0 heapWitnessStore).1).mem 0
          = heapWitnessStore.mem 0) :=
  ⟨by decide,
   history_not_mutated heapWitnessEnv "hi" 0 heapWitnessStore (by decide)⟩
